import Mathlib

/-!
Verification of the silence-based auto-hangup detector of the
`sip-connect-studio` repository.

Two implementations of the detector exist in the repository:

* `src/src/hooks/useSilenceDetection.ts` — the React hook.  It keeps
  `silenceTimeoutRef`, `debounceTimeoutRef`, `lastAudioActivityRef`,
  `audioTracksRef` and `audioLevelCheckRef` and has **no** Idle/Monitoring
  flag: `resetSilenceTimer` always arms the silence timeout.

* the `SilenceDetector` class in the test file `src/unnamed/part_009` —
  the same logic extracted for testing, with an `isActive` flag: the
  silence timeout is armed only while `isActive` (the spec's
  `Monitoring` state).

Both are embedded below (`SD` for the class, `Hook` for the hook).  Timers
are modelled the way the test suite drives them (jest fake timers):
a pending `setTimeout` is an absolute virtual deadline; `advance dt`
(`jest.advanceTimersByTime(dt)`) fires, in deadline order, every pending
timer whose deadline falls within the advanced window, running its
callback at its own fire time, and finally sets the clock to the target.
At most one silence timer and one debounce timer are ever alive
(each re-arm first cancels the prior one), and whenever both are pending
the silence timer was scheduled first (every arm of the silence timer
clears the debounce timer), so equal deadlines fire the silence timer
first, matching the event loop's insertion order.

Audio levels are normalized scalars in [0,1]; they are embedded as `ℚ`.
Track handles are opaque and compared by identity; they are embedded as
`ℕ`, and the JS `Set` as a duplicate-free insertion list.
-/

namespace SilenceSpec

/-- Configuration of the detector (`SilenceDetectionOptions` /
the `SilenceDetector` constructor options): `silenceThreshold` and
`debounceDelay` in milliseconds, `audioLevelThreshold` on the 0.0–1.0
scale. -/
structure Config where
  silenceThreshold : Nat
  audioLevelThreshold : Rat
  debounceDelay : Nat
deriving Repr, DecidableEq

namespace SD

/-- State of the `SilenceDetector` class (`src/unnamed/part_009`):
`now` is the virtual clock, `silenceDeadline`/`debounceDeadline` are the
pending `setTimeout`s (`silenceTimeoutRef`/`debounceTimeoutRef`) as
absolute fire times, `lastActivityAt` is `lastAudioActivityRef`,
`tracks` is the `audioTracks` set, `isActive` the monitoring flag, and
`firedCount` counts invocations of `onSilenceCallback`. -/
structure State where
  now : Nat
  lastActivityAt : Nat
  silenceDeadline : Option Nat
  debounceDeadline : Option Nat
  tracks : List Nat
  isActive : Bool
  firedCount : Nat
deriving Repr, DecidableEq

/-- A freshly constructed detector: no pending timers, no tracks,
inactive, `lastAudioActivityRef = Date.now()` (clock starts at 0). -/
def initState : State :=
  { now := 0, lastActivityAt := 0, silenceDeadline := none,
    debounceDeadline := none, tracks := [], isActive := false,
    firedCount := 0 }

/-- `SilenceDetector.resetSilenceTimer`: records the current time in
`lastAudioActivityRef`, clears both pending timeouts, and, only when
`isActive`, arms a new silence timeout `silenceThreshold` ms out. -/
def resetSilenceTimer (cfg : Config) (s : State) : State :=
  let s1 : State :=
    { s with lastActivityAt := s.now, silenceDeadline := none,
             debounceDeadline := none }
  if s1.isActive then
    { s1 with silenceDeadline := some (s1.now + cfg.silenceThreshold) }
  else s1

/-- `SilenceDetector.handleAudioLevel`: a sample strictly above
`audioLevelThreshold` cancels any pending debounce timeout and schedules
a new one `debounceDelay` ms out; any other sample is ignored. -/
def handleAudioLevel (cfg : Config) (level : Rat) (s : State) : State :=
  if cfg.audioLevelThreshold < level then
    { s with debounceDeadline := some (s.now + cfg.debounceDelay) }
  else s

/-- `SilenceDetector.addAudioTrack`: returns early when the track is
already present; otherwise inserts it (and attaches its level listener)
and, only when `isActive`, resets the silence timer. -/
def addAudioTrack (cfg : Config) (h : Nat) (s : State) : State :=
  if h ∈ s.tracks then s
  else
    let s1 : State := { s with tracks := h :: s.tracks }
    if s1.isActive then resetSilenceTimer cfg s1 else s1

/-- `SilenceDetector.removeAudioTrack`: deletes the track from the set
(no-op when absent). -/
def removeAudioTrack (h : Nat) (s : State) : State :=
  { s with tracks := s.tracks.filter (fun t => t ≠ h) }

/-- `SilenceDetector.startMonitoring`: sets `isActive` and resets the
silence timer (which, now active, arms the silence timeout). -/
def startMonitoring (cfg : Config) (s : State) : State :=
  resetSilenceTimer cfg { s with isActive := true }

/-- `SilenceDetector.stopMonitoring`: clears `isActive`, cancels both
pending timeouts and empties the track set. -/
def stopMonitoring (s : State) : State :=
  { s with isActive := false, silenceDeadline := none,
           debounceDeadline := none, tracks := [] }

/-- The hook's `recordActivity` (an immediate `resetSilenceTimer` call),
lifted onto the class's guarded `resetSilenceTimer`; the class itself
exposes no such wrapper. -/
def recordActivity (cfg : Config) (s : State) : State :=
  resetSilenceTimer cfg s

/-- `reportLevel(handle, level)` at the detector's boundary: a track's
`audioLevel` event reaches `handleAudioLevel` through the listener that
`addAudioTrack` attached, so a sample from an untracked handle is
dropped (`simulateAudioActivity` finds no track). -/
def reportLevel (cfg : Config) (h : Nat) (level : Rat) (s : State) :
    State :=
  if h ∈ s.tracks then handleAudioLevel cfg level s else s

/-- The silence timeout's callback firing at its deadline `t`: the
callback runs `onSilenceCallback` and the timeout is spent; it does not
re-arm. -/
def fireSilence (t : Nat) (s : State) : State :=
  { s with now := t, silenceDeadline := none,
           firedCount := s.firedCount + 1 }

/-- The debounce timeout's callback firing at its deadline `t`: the
timeout is spent and the callback runs `resetSilenceTimer`. -/
def fireDebounce (cfg : Config) (t : Nat) (s : State) : State :=
  resetSilenceTimer cfg { s with now := t, debounceDeadline := none }

/-- Fires every pending timeout whose deadline is at most `target`, in
deadline order (silence timer first on ties, matching insertion order).
A firing can arm at most one new timeout, so from any state at most
three firings occur within one window; the fuel is never exhausted when
it starts at 4. -/
def advanceLoop (cfg : Config) : Nat → Nat → State → State
  | 0, _, s => s
  | fuel + 1, target, s =>
    match s.silenceDeadline, s.debounceDeadline with
    | some a, some b =>
      if b < a then
        if b ≤ target then
          advanceLoop cfg fuel target (fireDebounce cfg b s)
        else s
      else
        if a ≤ target then
          advanceLoop cfg fuel target (fireSilence a s)
        else s
    | some a, none =>
      if a ≤ target then advanceLoop cfg fuel target (fireSilence a s)
      else s
    | none, some b =>
      if b ≤ target then
        advanceLoop cfg fuel target (fireDebounce cfg b s)
      else s
    | none, none => s

/-- Advance the virtual clock to an absolute `target`, firing due
timeouts on the way (`jest` sets the mocked clock to each timer's own
fire time while its callback runs, then to the target). -/
def advanceTo (cfg : Config) (target : Nat) (s : State) : State :=
  { advanceLoop cfg 4 target s with now := target }

/-- `jest.advanceTimersByTime dt`. -/
def advance (cfg : Config) (dt : Nat) (s : State) : State :=
  advanceTo cfg (s.now + dt) s

/-- A sequence of clock advances. -/
def advanceSeq (cfg : Config) (ds : List Nat) (s : State) : State :=
  ds.foldl (fun t d => advance cfg d t) s

end SD

/-- One externally triggered operation of the `SilenceDetector` class,
or one clock advance (a run of timer firings): the transition relation
the class's reachable states are closed under. -/
inductive Step (cfg : Config) : SD.State → SD.State → Prop
  | start (s : SD.State) : Step cfg s (SD.startMonitoring cfg s)
  | stop (s : SD.State) : Step cfg s (SD.stopMonitoring s)
  | add (h : Nat) (s : SD.State) : Step cfg s (SD.addAudioTrack cfg h s)
  | remove (h : Nat) (s : SD.State) :
      Step cfg s (SD.removeAudioTrack h s)
  | report (h : Nat) (level : Rat) (s : SD.State) :
      Step cfg s (SD.reportLevel cfg h level s)
  | record (s : SD.State) : Step cfg s (SD.recordActivity cfg s)
  | tick (dt : Nat) (s : SD.State) : Step cfg s (SD.advance cfg dt s)

namespace Hook

/-- State of the `useSilenceDetection` hook
(`src/src/hooks/useSilenceDetection.ts`): the same refs as the class,
but no active/idle flag — only the `audioLevelCheckRef` interval handle
(`levelCheckOn`) distinguishes "monitoring has been started". -/
structure State where
  now : Nat
  lastActivityAt : Nat
  silenceDeadline : Option Nat
  debounceDeadline : Option Nat
  tracks : List Nat
  levelCheckOn : Bool
  firedCount : Nat
deriving Repr, DecidableEq

/-- The hook's `resetSilenceTimer`: records `Date.now()`, clears both
timeouts and unconditionally arms a new silence timeout — there is no
monitoring guard. -/
def resetSilenceTimer (cfg : Config) (s : State) : State :=
  { s with lastActivityAt := s.now, debounceDeadline := none,
           silenceDeadline := some (s.now + cfg.silenceThreshold) }

/-- The hook's `handleAudioLevel(level, trackSid?)`: the `trackSid` is
only logged; a sample strictly above `audioLevelThreshold` re-schedules
the debounce timeout, anything else is ignored.  The tracked-track set
is never consulted. -/
def handleAudioLevel (cfg : Config) (level : Rat) (_sid : Nat)
    (s : State) : State :=
  if cfg.audioLevelThreshold < level then
    { s with debounceDeadline := some (s.now + cfg.debounceDelay) }
  else s

/-- The hook's `addAudioTrack`: returns early when present; otherwise
inserts and unconditionally calls `resetSilenceTimer`. -/
def addAudioTrack (cfg : Config) (h : Nat) (s : State) : State :=
  if h ∈ s.tracks then s
  else resetSilenceTimer cfg { s with tracks := h :: s.tracks }

/-- The hook's `removeAudioTrack`. -/
def removeAudioTrack (h : Nat) (s : State) : State :=
  { s with tracks := s.tracks.filter (fun t => t ≠ h) }

/-- The hook's `startMonitoring`: `resetSilenceTimer` then
`startAudioLevelChecking` (the one-second polling interval). -/
def startMonitoring (cfg : Config) (s : State) : State :=
  { resetSilenceTimer cfg s with levelCheckOn := true }

/-- The hook's `stopMonitoring`: clears both timeouts, the polling
interval and the track set. -/
def stopMonitoring (s : State) : State :=
  { s with silenceDeadline := none, debounceDeadline := none,
           levelCheckOn := false, tracks := [] }

/-- The hook's `recordActivity`: an unconditional `resetSilenceTimer`
call. -/
def recordActivity (cfg : Config) (s : State) : State :=
  resetSilenceTimer cfg s

/-- The hook's refs at mount: no pending timeouts, no tracks, no
polling interval, `lastAudioActivityRef = Date.now()` (clock 0). -/
def initState : State :=
  { now := 0, lastActivityAt := 0, silenceDeadline := none,
    debounceDeadline := none, tracks := [], levelCheckOn := false,
    firedCount := 0 }

end Hook

/-- A concrete configuration for witnesses: the thresholds the test
suite's `beforeEach` uses (`silenceThreshold` 10000 ms, `debounceDelay`
500 ms), with the audio-level threshold taken as 0 so that concrete
statements need no rational arithmetic beyond `0 < 1`. -/
def cfg0 : Config :=
  { silenceThreshold := 10000, audioLevelThreshold := 0,
    debounceDelay := 500 }

namespace SD

/-- A window in which no pending timeout is due leaves the state
untouched (for any fuel). -/
lemma advanceLoop_not_due (cfg : Config) (target : Nat) (s : State)
    (hs : ∀ a, s.silenceDeadline = some a → target < a)
    (hd : ∀ b, s.debounceDeadline = some b → target < b) :
    ∀ fuel, advanceLoop cfg fuel target s = s := by
  intro fuel
  cases fuel with
  | zero => rfl
  | succ n =>
    cases hsd : s.silenceDeadline with
    | none =>
      cases hdb : s.debounceDeadline with
      | none => simp [advanceLoop, hsd, hdb]
      | some b =>
        have := hd b hdb
        simp [advanceLoop, hsd, hdb]
        omega
    | some a =>
      have ha := hs a hsd
      cases hdb : s.debounceDeadline with
      | none =>
        simp [advanceLoop, hsd, hdb]
        omega
      | some b =>
        have hb := hd b hdb
        simp only [advanceLoop, hsd, hdb]
        split
        · rw [if_neg (by omega)]
        · rw [if_neg (by omega)]

/-- With only the silence timeout pending and due, one window fires it
exactly once and nothing else. -/
lemma advanceLoop_fire_silence (cfg : Config) (target a : Nat)
    (s : State) (fuel : Nat)
    (hsd : s.silenceDeadline = some a)
    (hdb : s.debounceDeadline = none)
    (ha : a ≤ target) :
    advanceLoop cfg (fuel + 1) target s = fireSilence a s := by
  simp only [advanceLoop, hsd, hdb, if_pos ha]
  exact advanceLoop_not_due cfg target _ (by simp [fireSilence])
    (by simp [fireSilence, hdb]) fuel

/-- With the debounce timeout due strictly before the pending silence
timeout, an active monitor fires the debounce once — which resets
`lastAudioActivityRef` and re-arms the silence timeout — and, the fresh
window not yet being over, nothing else fires. -/
lemma advanceLoop_fire_debounce (cfg : Config) (target D b : Nat)
    (s : State) (fuel : Nat)
    (hsd : s.silenceDeadline = some D)
    (hdb : s.debounceDeadline = some b)
    (hbD : b < D) (hb : b ≤ target)
    (hwin : target < b + cfg.silenceThreshold)
    (hact : s.isActive = true) :
    advanceLoop cfg (fuel + 1) target s = fireDebounce cfg b s := by
  simp only [advanceLoop, hsd, hdb, if_pos hbD, if_pos hb]
  have hfd : fireDebounce cfg b s =
      { s with now := b, lastActivityAt := b,
               silenceDeadline := some (b + cfg.silenceThreshold),
               debounceDeadline := none } := by
    simp [fireDebounce, resetSilenceTimer, hact]
  rw [hfd]
  exact advanceLoop_not_due cfg target _
    (by intro x hx; simp at hx; omega) (by simp) fuel

/-- `advance` with nothing due only moves the clock. -/
lemma advance_not_due (cfg : Config) (dt : Nat) (s : State)
    (hs : ∀ a, s.silenceDeadline = some a → s.now + dt < a)
    (hd : ∀ b, s.debounceDeadline = some b → s.now + dt < b) :
    advance cfg dt s = { s with now := s.now + dt } := by
  unfold advance advanceTo
  rw [advanceLoop_not_due cfg (s.now + dt) s hs hd 4]

/-- `advance` over a due silence timeout (no debounce pending): the
event fires once, the timeout is spent and not re-armed. -/
lemma advance_fire_silence (cfg : Config) (dt a : Nat) (s : State)
    (hsd : s.silenceDeadline = some a)
    (hdb : s.debounceDeadline = none)
    (ha : a ≤ s.now + dt) :
    advance cfg dt s =
      { s with now := s.now + dt, silenceDeadline := none,
               firedCount := s.firedCount + 1 } := by
  unfold advance advanceTo
  rw [show (4 : Nat) = 3 + 1 from rfl,
    advanceLoop_fire_silence cfg (s.now + dt) a s 3 hsd hdb ha]
  simp [fireSilence]

/-- `advance` over a due debounce timeout on an active monitor whose
silence timeout is further out: exactly one reset happens, at the
debounce deadline, and the silence timeout restarts from there. -/
lemma advance_fire_debounce (cfg : Config) (dt D b : Nat) (s : State)
    (hsd : s.silenceDeadline = some D)
    (hdb : s.debounceDeadline = some b)
    (hbD : b < D) (hb : b ≤ s.now + dt)
    (hwin : s.now + dt < b + cfg.silenceThreshold)
    (hact : s.isActive = true) :
    advance cfg dt s =
      { s with now := s.now + dt, lastActivityAt := b,
               silenceDeadline := some (b + cfg.silenceThreshold),
               debounceDeadline := none } := by
  unfold advance advanceTo
  rw [show (4 : Nat) = 3 + 1 from rfl,
    advanceLoop_fire_debounce cfg (s.now + dt) D b s 3 hsd hdb hbD hb
      hwin hact]
  simp [fireDebounce, resetSilenceTimer, hact]

/-- A reset keeps the track set. -/
lemma resetSilenceTimer_tracks (cfg : Config) (s : State) :
    (resetSilenceTimer cfg s).tracks = s.tracks := by
  simp only [resetSilenceTimer]
  split <;> rfl

/-- A reset keeps the monitoring flag. -/
lemma resetSilenceTimer_isActive (cfg : Config) (s : State) :
    (resetSilenceTimer cfg s).isActive = s.isActive := by
  simp only [resetSilenceTimer]
  split <;> rfl

/-- A debounce firing keeps the track set. -/
lemma fireDebounce_tracks (cfg : Config) (t : Nat) (s : State) :
    (fireDebounce cfg t s).tracks = s.tracks := by
  unfold fireDebounce
  rw [resetSilenceTimer_tracks]

/-- A debounce firing keeps the monitoring flag. -/
lemma fireDebounce_isActive (cfg : Config) (t : Nat) (s : State) :
    (fireDebounce cfg t s).isActive = s.isActive := by
  unfold fireDebounce
  rw [resetSilenceTimer_isActive]

/-- Timer firings never touch the track set nor the monitoring flag. -/
lemma advanceLoop_tracks_isActive (cfg : Config) :
    ∀ fuel target s, (advanceLoop cfg fuel target s).tracks = s.tracks ∧
      (advanceLoop cfg fuel target s).isActive = s.isActive := by
  intro fuel
  induction fuel with
  | zero => intro target s; exact ⟨rfl, rfl⟩
  | succ n ih =>
    intro target s
    cases hsd : s.silenceDeadline with
    | none =>
      cases hdb : s.debounceDeadline with
      | none => simp [advanceLoop, hsd, hdb]
      | some b =>
        simp only [advanceLoop, hsd, hdb]
        split
        · exact ⟨by rw [(ih target _).1, fireDebounce_tracks],
            by rw [(ih target _).2, fireDebounce_isActive]⟩
        · exact ⟨rfl, rfl⟩
    | some a =>
      cases hdb : s.debounceDeadline with
      | none =>
        simp only [advanceLoop, hsd, hdb]
        split
        · exact ⟨by rw [(ih target _).1]; rfl,
            by rw [(ih target _).2]; rfl⟩
        · exact ⟨rfl, rfl⟩
      | some b =>
        simp only [advanceLoop, hsd, hdb]
        split
        · split
          · exact ⟨by rw [(ih target _).1, fireDebounce_tracks],
              by rw [(ih target _).2, fireDebounce_isActive]⟩
          · exact ⟨rfl, rfl⟩
        · split
          · exact ⟨by rw [(ih target _).1]; rfl,
              by rw [(ih target _).2]; rfl⟩
          · exact ⟨rfl, rfl⟩

/-- `advance` never touches the track set nor the monitoring flag. -/
lemma advance_tracks_isActive (cfg : Config) (dt : Nat) (s : State) :
    (advance cfg dt s).tracks = s.tracks ∧
      (advance cfg dt s).isActive = s.isActive := by
  unfold advance advanceTo
  simpa using advanceLoop_tracks_isActive cfg 4 (s.now + dt) s

/-- The silence timeout armed by a reset implies the monitor was
active: `resetSilenceTimer` establishes the silence-timer invariant
unconditionally. -/
lemma resetSilenceTimer_inv (cfg : Config) (s : State) :
    (resetSilenceTimer cfg s).silenceDeadline.isSome →
      (resetSilenceTimer cfg s).isActive = true := by
  simp only [resetSilenceTimer]
  split
  · intro _
    assumption
  · simp

/-- Timer firings preserve the silence-timer invariant: a pending
silence timeout implies the monitor is active. -/
lemma advanceLoop_inv (cfg : Config) :
    ∀ fuel target s,
      (s.silenceDeadline.isSome → s.isActive = true) →
      ((advanceLoop cfg fuel target s).silenceDeadline.isSome →
        (advanceLoop cfg fuel target s).isActive = true) := by
  intro fuel
  induction fuel with
  | zero => intro target s hinv; exact hinv
  | succ n ih =>
    intro target s hinv
    cases hsd : s.silenceDeadline with
    | none =>
      cases hdb : s.debounceDeadline with
      | none => simp [advanceLoop, hsd, hdb]
      | some b =>
        simp only [advanceLoop, hsd, hdb]
        split
        · exact ih target _ (resetSilenceTimer_inv cfg _)
        · exact hinv
    | some a =>
      cases hdb : s.debounceDeadline with
      | none =>
        simp only [advanceLoop, hsd, hdb]
        split
        · exact ih target _ (by simp [fireSilence])
        · exact hinv
      | some b =>
        simp only [advanceLoop, hsd, hdb]
        split
        · split
          · exact ih target _ (resetSilenceTimer_inv cfg _)
          · exact hinv
        · split
          · exact ih target _ (by simp [fireSilence])
          · exact hinv

/-- Clock advances preserve the silence-timer invariant. -/
lemma advance_inv (cfg : Config) (dt : Nat) (s : State)
    (hinv : s.silenceDeadline.isSome → s.isActive = true) :
    (advance cfg dt s).silenceDeadline.isSome →
      (advance cfg dt s).isActive = true := by
  unfold advance advanceTo
  simpa using advanceLoop_inv cfg 4 (s.now + dt) s hinv

/-- With no pending timeout at all, any sequence of clock advances
changes nothing but the clock. -/
lemma advanceSeq_quiescent (cfg : Config) :
    ∀ ds (s : State), s.silenceDeadline = none →
      s.debounceDeadline = none →
      (advanceSeq cfg ds s).silenceDeadline = none ∧
        (advanceSeq cfg ds s).debounceDeadline = none ∧
        (advanceSeq cfg ds s).firedCount = s.firedCount ∧
        (advanceSeq cfg ds s).tracks = s.tracks ∧
        (advanceSeq cfg ds s).isActive = s.isActive := by
  intro ds
  induction ds with
  | nil => intro s h1 h2; exact ⟨h1, h2, rfl, rfl, rfl⟩
  | cons d ds ih =>
    intro s h1 h2
    have hstep : advance cfg d s = { s with now := s.now + d } :=
      advance_not_due cfg d s (by simp [h1]) (by simp [h2])
    have : advanceSeq cfg (d :: ds) s = advanceSeq cfg ds
        { s with now := s.now + d } := by
      simp [advanceSeq, hstep]
    rw [this]
    exact ih _ h1 h2

/-- The track set after `addAudioTrack`: unchanged when the handle is
already present, else the handle is inserted. -/
lemma addAudioTrack_tracks (cfg : Config) (h : Nat) (s : State) :
    (addAudioTrack cfg h s).tracks =
      if h ∈ s.tracks then s.tracks else h :: s.tracks := by
  simp only [addAudioTrack]
  split
  · rfl
  · split
    · rw [resetSilenceTimer_tracks]
    · rfl

/-- After `addAudioTrack` the handle is tracked. -/
lemma mem_addAudioTrack (cfg : Config) (h : Nat) (s : State) :
    h ∈ (addAudioTrack cfg h s).tracks := by
  rw [addAudioTrack_tracks]
  split
  · assumption
  · exact List.mem_cons_self _ _

/-- `addAudioTrack` of an already-present handle returns early. -/
lemma addAudioTrack_of_mem (cfg : Config) (h : Nat) (s : State)
    (hm : h ∈ s.tracks) : addAudioTrack cfg h s = s := by
  simp only [addAudioTrack]
  rw [if_pos hm]

/-- `startMonitoring` on a fresh detector: active, silence timeout
armed the full threshold out, nothing else pending. -/
lemma startMonitoring_initState (cfg : Config) :
    startMonitoring cfg initState =
      { now := 0, lastActivityAt := 0,
        silenceDeadline := some cfg.silenceThreshold,
        debounceDeadline := none, tracks := [], isActive := true,
        firedCount := 0 } := by
  simp [startMonitoring, resetSilenceTimer, initState]

end SD

namespace Hook

/-- The hook's track set after `addAudioTrack`: unchanged when the
handle is already present, else inserted (the unconditional reset does
not touch the set). -/
lemma hookAddAudioTrack_tracks (cfg : Config) (h : Nat) (s : State) :
    (addAudioTrack cfg h s).tracks =
      if h ∈ s.tracks then s.tracks else h :: s.tracks := by
  simp only [addAudioTrack, resetSilenceTimer]
  split <;> rfl

/-- After the hook's `addAudioTrack` the handle is tracked. -/
lemma hookMem_addAudioTrack (cfg : Config) (h : Nat) (s : State) :
    h ∈ (addAudioTrack cfg h s).tracks := by
  rw [hookAddAudioTrack_tracks]
  split
  · assumption
  · exact List.mem_cons_self _ _

/-- The hook's `addAudioTrack` of an already-present handle returns
early. -/
lemma hookAddAudioTrack_of_mem (cfg : Config) (h : Nat) (s : State)
    (hm : h ∈ s.tracks) : addAudioTrack cfg h s = s := by
  simp only [addAudioTrack]
  rw [if_pos hm]

end Hook

/-- Claim C1: after `start()` with no tracks added and no activity
samples, the silence event fires exactly once when exactly
`silenceThresholdMs` of virtual time has elapsed since `start()`, fires
at no earlier instant, and after firing the silence timer is not
re-armed. -/
theorem C1_basic_firing (cfg : Config) (t d : Nat)
    (ht : t < cfg.silenceThreshold) :
    (SD.advance cfg t (SD.startMonitoring cfg SD.initState)).firedCount
        = 0 ∧
    (SD.advance cfg cfg.silenceThreshold
        (SD.startMonitoring cfg SD.initState)).firedCount = 1 ∧
    (SD.advance cfg d (SD.advance cfg cfg.silenceThreshold
        (SD.startMonitoring cfg SD.initState))).firedCount = 1 ∧
    (SD.advance cfg d (SD.advance cfg cfg.silenceThreshold
        (SD.startMonitoring cfg SD.initState))).silenceDeadline
        = none ∧
    (SD.advance cfg d (SD.advance cfg cfg.silenceThreshold
        (SD.startMonitoring cfg SD.initState))).debounceDeadline
        = none := by
  rw [SD.startMonitoring_initState]
  have h1 := SD.advance_not_due cfg t
    { now := 0, lastActivityAt := 0,
      silenceDeadline := some cfg.silenceThreshold,
      debounceDeadline := none, tracks := [], isActive := true,
      firedCount := 0 }
    (by intro a ha
        simp only [Option.some.injEq] at ha
        subst ha
        simpa using ht)
    (by simp)
  have h2 := SD.advance_fire_silence cfg cfg.silenceThreshold
    cfg.silenceThreshold
    { now := 0, lastActivityAt := 0,
      silenceDeadline := some cfg.silenceThreshold,
      debounceDeadline := none, tracks := [], isActive := true,
      firedCount := 0 } rfl rfl (by simp)
  rw [h1, h2]
  have h3 := SD.advance_not_due cfg d
    { now := 0 + cfg.silenceThreshold, lastActivityAt := 0,
      silenceDeadline := none, debounceDeadline := none, tracks := [],
      isActive := true, firedCount := 0 + 1 }
    (by simp) (by simp)
  rw [h3]
  exact ⟨rfl, rfl, rfl, rfl, rfl⟩

/-- Witness for C1 at the test suite's thresholds: advancing 9999 ms
does not fire, advancing the full 10000 ms fires exactly once, and
6000 ms more leave the count at one with nothing pending. -/
theorem C1_basic_firing_witness :
    9999 < cfg0.silenceThreshold ∧
    (SD.advance cfg0 9999
        (SD.startMonitoring cfg0 SD.initState)).firedCount = 0 ∧
    (SD.advance cfg0 cfg0.silenceThreshold
        (SD.startMonitoring cfg0 SD.initState)).firedCount = 1 ∧
    (SD.advance cfg0 6000 (SD.advance cfg0 cfg0.silenceThreshold
        (SD.startMonitoring cfg0 SD.initState))).silenceDeadline
        = none :=
  ⟨by decide, (C1_basic_firing cfg0 9999 6000 (by decide)).1,
    (C1_basic_firing cfg0 9999 6000 (by decide)).2.1,
    (C1_basic_firing cfg0 9999 6000 (by decide)).2.2.2.1⟩

/-- Claim C4: once `stopMonitoring` runs — including with a debounce
timeout pending — both timeouts are canceled together with the
transition to Idle, the track set is cleared, and no sequence of later
clock advances fires the silence event or leaves any timer pending. -/
theorem C4_stop_cancels_everything (cfg : Config) (s : SD.State)
    (ds : List Nat) :
    (SD.stopMonitoring s).isActive = false ∧
    (SD.stopMonitoring s).silenceDeadline = none ∧
    (SD.stopMonitoring s).debounceDeadline = none ∧
    (SD.stopMonitoring s).tracks = [] ∧
    (SD.advanceSeq cfg ds (SD.stopMonitoring s)).firedCount
        = s.firedCount ∧
    (SD.advanceSeq cfg ds (SD.stopMonitoring s)).silenceDeadline
        = none ∧
    (SD.advanceSeq cfg ds (SD.stopMonitoring s)).debounceDeadline
        = none := by
  have h := SD.advanceSeq_quiescent cfg ds (SD.stopMonitoring s) rfl
    rfl
  exact ⟨rfl, rfl, rfl, rfl, h.2.2.1, h.1, h.2.1⟩

/-- Claim C7: the hook's `recordActivity` is an immediate,
non-debounced reset: in every state it cancels any pending debounce
timeout, sets `lastAudioActivityRef` to the current instant and re-arms
the silence timeout a full `silenceThresholdMs` out; afterwards no
debounce is pending. -/
theorem C7_recordActivity_immediate_reset (cfg : Config)
    (s : Hook.State) :
    (Hook.recordActivity cfg s).lastActivityAt = s.now ∧
    (Hook.recordActivity cfg s).debounceDeadline = none ∧
    (Hook.recordActivity cfg s).silenceDeadline
        = some (s.now + cfg.silenceThreshold) ∧
    (Hook.recordActivity cfg s).now = s.now ∧
    (Hook.recordActivity cfg s).tracks = s.tracks ∧
    (Hook.recordActivity cfg s).firedCount = s.firedCount :=
  ⟨rfl, rfl, rfl, rfl, rfl, rfl⟩

/-- Claim C2 (refuted as stated): in the `SilenceDetector` a debounce
timeout can be pending while the monitor is Idle — adding a track while
Idle attaches its level listener, and an above-threshold sample then
schedules the debounce with no `isActive` guard.  The reachable state
after `addAudioTrack(t)`, `reportLevel(t, 1)` on a fresh (Idle)
detector holds a pending debounce timeout due at 500 ms. -/
theorem C2_counterexample :
    (SD.reportLevel cfg0 0 1
      (SD.addAudioTrack cfg0 0 SD.initState)).isActive = false ∧
    (SD.reportLevel cfg0 0 1
      (SD.addAudioTrack cfg0 0 SD.initState)).debounceDeadline
      = some 500 := by
  have hadd : SD.addAudioTrack cfg0 0 SD.initState =
      { SD.initState with tracks := [0] } := by
    simp [SD.addAudioTrack, SD.initState]
  rw [hadd]
  simp [SD.reportLevel, SD.handleAudioLevel, SD.initState, cfg0]

/-- Claim C2 (amended): the invariant holds for the silence timer — a
pending silence timeout exists only while Monitoring, every operation
and timer firing preserves this, and the transition to Idle
(`stopMonitoring`) cancels both timers and clears the tracked set; the
debounce timer, however, is exempt: it may be pending while Idle
(see the counterexample), though its firing while Idle arms nothing. -/
theorem C2_silence_timer_invariant (cfg : Config) (s s' : SD.State)
    (hstep : Step cfg s s')
    (hinv : s.silenceDeadline.isSome → s.isActive = true) :
    (s'.silenceDeadline.isSome → s'.isActive = true) ∧
    (SD.stopMonitoring s).isActive = false ∧
    (SD.stopMonitoring s).silenceDeadline = none ∧
    (SD.stopMonitoring s).debounceDeadline = none ∧
    (SD.stopMonitoring s).tracks = [] := by
  refine ⟨?_, rfl, rfl, rfl, rfl⟩
  cases hstep with
  | start => exact SD.resetSilenceTimer_inv cfg _
  | stop => simp [SD.stopMonitoring]
  | add h =>
    simp only [SD.addAudioTrack]
    split
    · exact hinv
    · split
      · exact SD.resetSilenceTimer_inv cfg _
      · exact hinv
  | remove h => exact hinv
  | report h level =>
    simp only [SD.reportLevel, SD.handleAudioLevel]
    split
    · split
      · exact hinv
      · exact hinv
    · exact hinv
  | record => exact SD.resetSilenceTimer_inv cfg _
  | tick dt => exact SD.advance_inv cfg dt s hinv

/-- Witness for the amended C2 at the `start()` step from a fresh
detector. -/
theorem C2_silence_timer_invariant_witness :
    ((SD.startMonitoring cfg0 SD.initState).silenceDeadline.isSome →
      (SD.startMonitoring cfg0 SD.initState).isActive = true) ∧
    (SD.stopMonitoring SD.initState).silenceDeadline = none :=
  ⟨(C2_silence_timer_invariant cfg0 SD.initState _
      (Step.start SD.initState) (by decide)).1,
    (C2_silence_timer_invariant cfg0 SD.initState _
      (Step.start SD.initState) (by decide)).2.2.1⟩

/-- Claim C3: adding an untracked handle while Monitoring inserts it
and immediately re-arms the silence timer as if activity just occurred
(activity clock set to now, debounce canceled, fresh full window);
adding it while Idle changes only the tracked set, leaving both timers
and the activity clock untouched. -/
theorem C3_addTrack_state_dependent (cfg : Config) (h : Nat)
    (s : SD.State) (hnot : h ∉ s.tracks) :
    (s.isActive = true →
      SD.addAudioTrack cfg h s =
        { s with tracks := h :: s.tracks, lastActivityAt := s.now,
                 silenceDeadline := some (s.now + cfg.silenceThreshold),
                 debounceDeadline := none }) ∧
    (s.isActive = false →
      SD.addAudioTrack cfg h s
        = { s with tracks := h :: s.tracks }) := by
  constructor
  · intro ha
    simp [SD.addAudioTrack, SD.resetSilenceTimer, hnot, ha]
  · intro ha
    simp [SD.addAudioTrack, SD.resetSilenceTimer, hnot, ha]

/-- Witness for C3: adding handle 5 to an Idle fresh detector only
inserts it; adding it to a just-started detector re-arms the full
window. -/
theorem C3_addTrack_state_dependent_witness :
    5 ∉ SD.initState.tracks ∧
    SD.addAudioTrack cfg0 5 SD.initState
      = { SD.initState with tracks := 5 :: SD.initState.tracks } ∧
    SD.addAudioTrack cfg0 5 (SD.startMonitoring cfg0 SD.initState)
      = { SD.startMonitoring cfg0 SD.initState with
            tracks := 5 :: (SD.startMonitoring cfg0 SD.initState).tracks,
            lastActivityAt := (SD.startMonitoring cfg0 SD.initState).now,
            silenceDeadline :=
              some ((SD.startMonitoring cfg0 SD.initState).now
                + cfg0.silenceThreshold),
            debounceDeadline := none } :=
  ⟨by decide,
    (C3_addTrack_state_dependent cfg0 5 SD.initState (by decide)).2
      rfl,
    (C3_addTrack_state_dependent cfg0 5
      (SD.startMonitoring cfg0 SD.initState) (by decide)).1 rfl⟩

/-- Claim C5: sliding-window semantics — an above-threshold sample
whose debounce elapses before the pending window expires moves
`lastAudioActivityRef` to the reset instant, cancels the old silence
timeout and starts a fresh window of exactly `silenceThresholdMs` from
the reset; the event then fires exactly `silenceThresholdMs` after the
reset and at no earlier instant, so elapsed silence never accumulates
across resets. -/
theorem C5_sliding_window (cfg : Config) (h D t : Nat) (level : Rat)
    (s r : SD.State)
    (hact : s.isActive = true)
    (hmem : h ∈ s.tracks)
    (hlvl : cfg.audioLevelThreshold < level)
    (hsd : s.silenceDeadline = some D)
    (hdb : s.now + cfg.debounceDelay < D)
    (hT : 0 < cfg.silenceThreshold)
    (hr : r = SD.advance cfg cfg.debounceDelay
      (SD.reportLevel cfg h level s)) :
    r.lastActivityAt = s.now + cfg.debounceDelay ∧
    r.silenceDeadline
      = some (s.now + cfg.debounceDelay + cfg.silenceThreshold) ∧
    r.debounceDeadline = none ∧
    r.now = s.now + cfg.debounceDelay ∧
    r.firedCount = s.firedCount ∧
    (t < cfg.silenceThreshold →
      (SD.advance cfg t r).firedCount = s.firedCount) ∧
    (SD.advance cfg cfg.silenceThreshold r).firedCount
      = s.firedCount + 1 := by
  have he1 : SD.reportLevel cfg h level s =
      { s with debounceDeadline := some (s.now
          + cfg.debounceDelay) } := by
    simp only [SD.reportLevel, SD.handleAudioLevel]
    rw [if_pos hmem, if_pos hlvl]
  have hfire := SD.advance_fire_debounce cfg cfg.debounceDelay D
    (s.now + cfg.debounceDelay)
    { s with debounceDeadline := some (s.now + cfg.debounceDelay) }
    (by simpa using hsd) rfl (by omega) (le_refl _)
    (by show s.now + cfg.debounceDelay <
          s.now + cfg.debounceDelay + cfg.silenceThreshold
        omega)
    (by simpa using hact)
  have hr2 : r =
      { s with now := s.now + cfg.debounceDelay,
               lastActivityAt := s.now + cfg.debounceDelay,
               silenceDeadline := some (s.now + cfg.debounceDelay
                 + cfg.silenceThreshold),
               debounceDeadline := none } := by
    rw [hr, he1, hfire]
  subst hr2
  refine ⟨rfl, rfl, rfl, rfl, rfl, ?_, ?_⟩
  · intro ht
    rw [SD.advance_not_due cfg t { s with now := s.now + cfg.debounceDelay, lastActivityAt := s.now + cfg.debounceDelay, silenceDeadline := some (s.now + cfg.debounceDelay + cfg.silenceThreshold), debounceDeadline := none }
      (by intro a ha; simp at ha ⊢; omega) (by simp)]
  · rw [SD.advance_fire_silence cfg cfg.silenceThreshold
      (s.now + cfg.debounceDelay + cfg.silenceThreshold) { s with now := s.now + cfg.debounceDelay, lastActivityAt := s.now + cfg.debounceDelay, silenceDeadline := some (s.now + cfg.debounceDelay + cfg.silenceThreshold), debounceDeadline := none }
      rfl rfl (le_refl _)]

/-- Witness for C5: from a just-started detector tracking handle 7, a
full-level sample plus the 500 ms debounce resets the clock to 500;
9999 ms later nothing has fired, 10000 ms after the reset the event has
fired once. -/
theorem C5_sliding_window_witness :
    (SD.advance cfg0 cfg0.debounceDelay (SD.reportLevel cfg0 7 1
        (SD.addAudioTrack cfg0 7
          (SD.startMonitoring cfg0 SD.initState)))).lastActivityAt
      = (SD.addAudioTrack cfg0 7
          (SD.startMonitoring cfg0 SD.initState)).now
        + cfg0.debounceDelay ∧
    (SD.advance cfg0 9999
        (SD.advance cfg0 cfg0.debounceDelay (SD.reportLevel cfg0 7 1
          (SD.addAudioTrack cfg0 7
            (SD.startMonitoring cfg0 SD.initState))))).firedCount
      = (SD.addAudioTrack cfg0 7
          (SD.startMonitoring cfg0 SD.initState)).firedCount ∧
    (SD.advance cfg0 cfg0.silenceThreshold
        (SD.advance cfg0 cfg0.debounceDelay (SD.reportLevel cfg0 7 1
          (SD.addAudioTrack cfg0 7
            (SD.startMonitoring cfg0 SD.initState))))).firedCount
      = (SD.addAudioTrack cfg0 7
          (SD.startMonitoring cfg0 SD.initState)).firedCount + 1 :=
  ⟨(C5_sliding_window cfg0 7 10000 9999 1 _ _ (by decide) (by decide)
      zero_lt_one (by decide) (by decide) (by decide) rfl).1,
    (C5_sliding_window cfg0 7 10000 9999 1 _ _ (by decide)
      (by decide) zero_lt_one (by decide) (by decide) (by decide)
      rfl).2.2.2.2.2.1 (by decide),
    (C5_sliding_window cfg0 7 10000 9999 1 _ _ (by decide)
      (by decide) zero_lt_one (by decide) (by decide) (by decide)
      rfl).2.2.2.2.2.2⟩

/-- Claim C6: debounce collapsing — above-threshold samples spaced
below `debounceMs` each cancel and re-schedule the pending debounce, so
a burst of three produces exactly one reset: `lastAudioActivityRef`
keeps its old value through all three samples and both gaps, and moves
exactly once, to the instant the last-scheduled debounce fires. -/
theorem C6_debounce_collapsing (cfg : Config) (h D d1 d2 : Nat)
    (l1 l2 l3 : Rat) (s e1 e2 e3 e4 e5 e6 : SD.State)
    (hact : s.isActive = true)
    (hmem : h ∈ s.tracks)
    (hl1 : cfg.audioLevelThreshold < l1)
    (hl2 : cfg.audioLevelThreshold < l2)
    (hl3 : cfg.audioLevelThreshold < l3)
    (hsd : s.silenceDeadline = some D)
    (hD : s.now + d1 + d2 + cfg.debounceDelay < D)
    (hd1 : d1 < cfg.debounceDelay)
    (hd2 : d2 < cfg.debounceDelay)
    (hT : 0 < cfg.silenceThreshold)
    (he1 : e1 = SD.reportLevel cfg h l1 s)
    (he2 : e2 = SD.advance cfg d1 e1)
    (he3 : e3 = SD.reportLevel cfg h l2 e2)
    (he4 : e4 = SD.advance cfg d2 e3)
    (he5 : e5 = SD.reportLevel cfg h l3 e4)
    (he6 : e6 = SD.advance cfg cfg.debounceDelay e5) :
    e1.lastActivityAt = s.lastActivityAt ∧
    e2.lastActivityAt = s.lastActivityAt ∧
    e3.lastActivityAt = s.lastActivityAt ∧
    e4.lastActivityAt = s.lastActivityAt ∧
    e5.lastActivityAt = s.lastActivityAt ∧
    e6.lastActivityAt = s.now + d1 + d2 + cfg.debounceDelay ∧
    e6.firedCount = s.firedCount ∧
    e6.debounceDeadline = none ∧
    e6.silenceDeadline
      = some (s.now + d1 + d2 + cfg.debounceDelay
          + cfg.silenceThreshold) := by
  have hE1 : e1 = { s with debounceDeadline := some (s.now
      + cfg.debounceDelay) } := by
    rw [he1]
    simp only [SD.reportLevel, SD.handleAudioLevel]
    rw [if_pos hmem, if_pos hl1]
  subst hE1
  have hE2 : e2 = { s with now := s.now + d1, debounceDeadline := some (s.now + cfg.debounceDelay) } := by
    rw [he2, SD.advance_not_due cfg d1
      { s with debounceDeadline := some (s.now + cfg.debounceDelay) }
      (by intro a ha
          simp at ha ⊢
          rw [hsd] at ha
          injection ha with ha'
          omega)
      (by intro b hb
          simp at hb ⊢
          omega)]
  subst hE2
  have hE3 : e3 = { s with now := s.now + d1, debounceDeadline := some (s.now + d1 + cfg.debounceDelay) } := by
    rw [he3]
    simp only [SD.reportLevel, SD.handleAudioLevel]
    rw [if_pos (by simpa using hmem), if_pos hl2]
  subst hE3
  have hE4 : e4 = { s with now := s.now + d1 + d2, debounceDeadline := some (s.now + d1 + cfg.debounceDelay) } := by
    rw [he4, SD.advance_not_due cfg d2 { s with now := s.now + d1, debounceDeadline := some (s.now + d1 + cfg.debounceDelay) }
      (by intro a ha
          simp at ha ⊢
          rw [hsd] at ha
          injection ha with ha'
          omega)
      (by intro b hb
          simp at hb ⊢
          omega)]
  subst hE4
  have hE5 : e5 = { s with now := s.now + d1 + d2, debounceDeadline := some (s.now + d1 + d2 + cfg.debounceDelay) } := by
    rw [he5]
    simp only [SD.reportLevel, SD.handleAudioLevel]
    rw [if_pos (by simpa using hmem), if_pos hl3]
  subst hE5
  have hE6 : e6 = { s with now := s.now + d1 + d2 + cfg.debounceDelay, lastActivityAt := s.now + d1 + d2 + cfg.debounceDelay, silenceDeadline := some (s.now + d1 + d2 + cfg.debounceDelay + cfg.silenceThreshold), debounceDeadline := none } := by
    rw [he6, SD.advance_fire_debounce cfg cfg.debounceDelay D
      (s.now + d1 + d2 + cfg.debounceDelay) { s with now := s.now + d1 + d2, debounceDeadline := some (s.now + d1 + d2 + cfg.debounceDelay) }
      (by simpa using hsd) rfl (by omega) (le_refl _)
      (by show s.now + d1 + d2 + cfg.debounceDelay <
            s.now + d1 + d2 + cfg.debounceDelay + cfg.silenceThreshold
          omega)
      (by simpa using hact)]
  subst hE6
  exact ⟨rfl, rfl, rfl, rfl, rfl, rfl, rfl, rfl, rfl⟩

/-- Witness for C6 at the test suite's spacing: three full-level
samples 100 ms apart with a 500 ms debounce produce exactly one reset,
at 700 ms. -/
theorem C6_debounce_collapsing_witness :
    (SD.advance cfg0 100 (SD.reportLevel cfg0 7 1
        (SD.addAudioTrack cfg0 7
          (SD.startMonitoring cfg0 SD.initState)))).lastActivityAt
      = (SD.addAudioTrack cfg0 7
          (SD.startMonitoring cfg0 SD.initState)).lastActivityAt ∧
    (SD.advance cfg0 cfg0.debounceDelay (SD.reportLevel cfg0 7 1
        (SD.advance cfg0 100 (SD.reportLevel cfg0 7 1
          (SD.advance cfg0 100 (SD.reportLevel cfg0 7 1
            (SD.addAudioTrack cfg0 7
              (SD.startMonitoring cfg0
                SD.initState)))))))).lastActivityAt
      = (SD.addAudioTrack cfg0 7
          (SD.startMonitoring cfg0 SD.initState)).now + 100 + 100
        + cfg0.debounceDelay ∧
    (SD.advance cfg0 cfg0.debounceDelay (SD.reportLevel cfg0 7 1
        (SD.advance cfg0 100 (SD.reportLevel cfg0 7 1
          (SD.advance cfg0 100 (SD.reportLevel cfg0 7 1
            (SD.addAudioTrack cfg0 7
              (SD.startMonitoring cfg0
                SD.initState)))))))).firedCount
      = (SD.addAudioTrack cfg0 7
          (SD.startMonitoring cfg0 SD.initState)).firedCount :=
  ⟨(C6_debounce_collapsing cfg0 7 10000 100 100 1 1 1 _ _ _ _ _ _ _
      (by decide) (by decide) zero_lt_one zero_lt_one zero_lt_one
      (by decide) (by decide) (by decide) (by decide) (by decide)
      rfl rfl rfl rfl rfl rfl).2.1,
    (C6_debounce_collapsing cfg0 7 10000 100 100 1 1 1 _ _ _ _ _ _ _
      (by decide) (by decide) zero_lt_one zero_lt_one zero_lt_one
      (by decide) (by decide) (by decide) (by decide) (by decide)
      rfl rfl rfl rfl rfl rfl).2.2.2.2.2.1,
    (C6_debounce_collapsing cfg0 7 10000 100 100 1 1 1 _ _ _ _ _ _ _
      (by decide) (by decide) zero_lt_one zero_lt_one zero_lt_one
      (by decide) (by decide) (by decide) (by decide) (by decide)
      rfl rfl rfl rfl rfl rfl).2.2.2.2.2.2.1⟩

/-- Claim C8: a sample at or below `activityLevelThreshold` is a
complete no-op in both implementations — no debounce is scheduled, no
timer canceled, `lastAudioActivityRef` untouched — so the silence event
still fires exactly at the pending `silenceThresholdMs` boundary. -/
theorem C8_below_threshold_noop (cfg : Config) (h sid D : Nat)
    (level : Rat) (s : SD.State) (hs : Hook.State)
    (hle : level ≤ cfg.audioLevelThreshold) :
    SD.reportLevel cfg h level s = s ∧
    SD.handleAudioLevel cfg level s = s ∧
    Hook.handleAudioLevel cfg level sid hs = hs ∧
    (s.silenceDeadline = some D → s.debounceDeadline = none →
      s.now ≤ D →
      (SD.advance cfg (D - s.now)
        (SD.reportLevel cfg h level s)).firedCount
        = s.firedCount + 1) := by
  have hnl : SD.handleAudioLevel cfg level s = s := by
    simp only [SD.handleAudioLevel]
    rw [if_neg (not_lt.mpr hle)]
  have hrep : SD.reportLevel cfg h level s = s := by
    simp only [SD.reportLevel, hnl]
    split <;> rfl
  refine ⟨hrep, hnl, ?_, ?_⟩
  · simp only [Hook.handleAudioLevel]
    rw [if_neg (not_lt.mpr hle)]
  · intro hsd hdb hnow
    rw [hrep, SD.advance_fire_silence cfg (D - s.now) D s hsd hdb
      (by omega)]

/-- Witness for C8: a zero-level sample against the armed test
configuration changes nothing, and the event still fires at the
original 10000 ms boundary. -/
theorem C8_below_threshold_noop_witness :
    (0 : Rat) ≤ cfg0.audioLevelThreshold ∧
    SD.reportLevel cfg0 3 0 (SD.startMonitoring cfg0 SD.initState)
      = SD.startMonitoring cfg0 SD.initState ∧
    (SD.advance cfg0
        (10000 - (SD.startMonitoring cfg0 SD.initState).now)
        (SD.reportLevel cfg0 3 0
          (SD.startMonitoring cfg0 SD.initState))).firedCount
      = (SD.startMonitoring cfg0 SD.initState).firedCount + 1 :=
  ⟨le_refl _,
    (C8_below_threshold_noop cfg0 3 9 10000 0
      (SD.startMonitoring cfg0 SD.initState) Hook.initState
      (le_refl _)).1,
    (C8_below_threshold_noop cfg0 3 9 10000 0
      (SD.startMonitoring cfg0 SD.initState) Hook.initState
      (le_refl _)).2.2.2 rfl rfl (by decide)⟩

/-- Claim C9: adding the same handle twice leaves the detector exactly
as after the first add in both implementations; from an empty set the
tracked-track count ends at 1, with no duplicate inserted. -/
theorem C9_idempotent_addTrack (cfg : Config) (h : Nat)
    (s : SD.State) (hs : Hook.State) :
    SD.addAudioTrack cfg h (SD.addAudioTrack cfg h s)
      = SD.addAudioTrack cfg h s ∧
    Hook.addAudioTrack cfg h (Hook.addAudioTrack cfg h hs)
      = Hook.addAudioTrack cfg h hs ∧
    (s.tracks = [] →
      (SD.addAudioTrack cfg h
        (SD.addAudioTrack cfg h s)).tracks.length = 1) ∧
    (hs.tracks = [] →
      (Hook.addAudioTrack cfg h
        (Hook.addAudioTrack cfg h hs)).tracks.length = 1) := by
  have k1 := SD.addAudioTrack_of_mem cfg h (SD.addAudioTrack cfg h s)
    (SD.mem_addAudioTrack cfg h s)
  have k2 := Hook.hookAddAudioTrack_of_mem cfg h
    (Hook.addAudioTrack cfg h hs)
    (Hook.hookMem_addAudioTrack cfg h hs)
  refine ⟨k1, k2, ?_, ?_⟩
  · intro he
    rw [k1, SD.addAudioTrack_tracks, he]
    simp
  · intro he
    rw [k2, Hook.hookAddAudioTrack_tracks, he]
    simp

/-- Witness for C9: double-adding handle 1 to a fresh detector leaves
one tracked track in both implementations. -/
theorem C9_idempotent_addTrack_witness :
    (SD.addAudioTrack cfg0 1
      (SD.addAudioTrack cfg0 1 SD.initState)).tracks.length = 1 ∧
    (Hook.addAudioTrack cfg0 1
      (Hook.addAudioTrack cfg0 1 Hook.initState)).tracks.length = 1 :=
  ⟨(C9_idempotent_addTrack cfg0 1 SD.initState Hook.initState).2.2.1
      rfl,
    (C9_idempotent_addTrack cfg0 1 SD.initState Hook.initState).2.2.2
      rfl⟩

/-- Claim C10: in the hook, `handleAudioLevel` never consults the
tracked-track set — two states differing only in the set produce
identical timer, clock and activity effects, the set itself is left as
it was, and an above-threshold sample from an untracked handle still
schedules the debounce without tracking the handle. -/
theorem C10_handleAudioLevel_track_independent (cfg : Config)
    (s : Hook.State) (t1 t2 : List Nat) (level : Rat) (sid : Nat)
    (r1 r2 : Hook.State)
    (hr1 : r1 = Hook.handleAudioLevel cfg level sid
      { s with tracks := t1 })
    (hr2 : r2 = Hook.handleAudioLevel cfg level sid
      { s with tracks := t2 }) :
    r1.tracks = t1 ∧ r2.tracks = t2 ∧
    r1.silenceDeadline = r2.silenceDeadline ∧
    r1.debounceDeadline = r2.debounceDeadline ∧
    r1.lastActivityAt = r2.lastActivityAt ∧
    r1.now = r2.now ∧ r1.firedCount = r2.firedCount ∧
    (cfg.audioLevelThreshold < level →
      r1.debounceDeadline = some (s.now + cfg.debounceDelay)) := by
  subst hr1 hr2
  by_cases hc : cfg.audioLevelThreshold < level <;>
    simp [Hook.handleAudioLevel, hc]

/-- Witness for C10: an above-threshold sample from handle 9 has the
same effect whether or not a track is in the set, and tracks nothing
new. -/
theorem C10_handleAudioLevel_track_independent_witness :
    (Hook.handleAudioLevel cfg0 1 9
      { Hook.initState with tracks := [4] }).tracks = [4] ∧
    (Hook.handleAudioLevel cfg0 1 9
        { Hook.initState with tracks := [4] }).debounceDeadline
      = (Hook.handleAudioLevel cfg0 1 9
        { Hook.initState with tracks := [] }).debounceDeadline ∧
    (Hook.handleAudioLevel cfg0 1 9
        { Hook.initState with tracks := [] }).debounceDeadline
      = some (Hook.initState.now + cfg0.debounceDelay) :=
  ⟨(C10_handleAudioLevel_track_independent cfg0 Hook.initState [4] []
      1 9 _ _ rfl rfl).1,
    (C10_handleAudioLevel_track_independent cfg0 Hook.initState [4]
      [] 1 9 _ _ rfl rfl).2.2.2.1,
    (C10_handleAudioLevel_track_independent cfg0 Hook.initState []
      [4] 1 9 _ _ rfl rfl).2.2.2.2.2.2.2 zero_lt_one⟩

end SilenceSpec
